import Mathlib

/-!
Shallow embedding of the `syncscript-backend` energy-matching and scoring
subsystem: `src/models/Task.ts`, `src/models/Energy.ts`,
`src/controllers/energy.controller.ts` and `src/controllers/task.controller.ts`.

Database tables are modelled as lists of records, `NOW()` as an explicit
parameter, generated ids as explicit parameters, JavaScript numbers as
`Int`/`ℚ` (all arithmetic performed by the code is exact in binary floating
point at the relevant magnitudes), and JavaScript truthiness on numbers and
strings is modelled explicitly (`0` and `""` are falsy, `undefined` is
modelled by `Option.none`).
-/

unseal Rat.add Rat.mul Rat.inv

namespace SyncScript

/-- JavaScript `Math.round` on an exact rational: round half toward positive infinity. -/
def jsRound (q : ℚ) : Int := ⌊q + 1/2⌋

/-- JavaScript `x || d` for an optional number (`undefined` and `0` are falsy). -/
def jsOrInt (x : Option Int) (d : Int) : Int :=
  match x with
  | none => d
  | some v => if v = 0 then d else v

/-- JavaScript `x || null` for an optional number (`0` collapses to `null`). -/
def jsOrNullInt (x : Option Int) : Option Int :=
  match x with
  | none => none
  | some v => if v = 0 then none else some v

/-- JavaScript `x || null` for an optional string (`""` collapses to `null`). -/
def jsOrNullStr (x : Option String) : Option String :=
  match x with
  | none => none
  | some v => if v = "" then none else some v

/-- A tag attached to a task (interface `Tag`, Task.ts:3-7). -/
structure Tag where
  id : String
  label : String
  color : String
deriving DecidableEq

/-- A row of the `tasks` table (interface `Task`, Task.ts:9-26).  Timestamps
are epoch seconds; `created_at`/`updated_at` are never read by this
subsystem and are omitted. -/
structure Task where
  id : String
  user_id : String
  project_id : Option String
  title : String
  description : Option String
  energy_requirement : Int
  priority : Int
  status : String
  due_date : Option Int
  completed_at : Option Int
  estimated_duration : Option Int
  actual_duration : Option Int
  points : Int
  tags : List Tag
deriving DecidableEq

/-- Input of `TaskModel.create` (interface `CreateTaskData`, Task.ts:28-38). -/
structure CreateTaskData where
  user_id : String
  project_id : Option String := none
  title : String
  description : Option String := none
  energy_requirement : Option Int := none
  priority : Option Int := none
  due_date : Option Int := none
  estimated_duration : Option Int := none
  tags : Option (List Tag) := none
deriving DecidableEq

/-- Priority multiplier of `TaskModel.calculateBasePoints` (Task.ts:80-86):
the object lookup `{1:10, 2:20, 3:40, 4:80, 5:150}[priority] || 40`. -/
def priorityMultiplier (priority : Int) : ℚ :=
  if priority = 1 then 10
  else if priority = 2 then 20
  else if priority = 3 then 40
  else if priority = 4 then 80
  else if priority = 5 then 150
  else 40

/-- Energy multiplier of `TaskModel.calculateBasePoints` (Task.ts:88-94):
the object lookup `{1:0.5, 2:0.75, 3:1.0, 4:1.25, 5:1.5}[energyRequirement] || 1.0`. -/
def energyMultiplier (energyRequirement : Int) : ℚ :=
  if energyRequirement = 1 then 1/2
  else if energyRequirement = 2 then 3/4
  else if energyRequirement = 3 then 1
  else if energyRequirement = 4 then 5/4
  else if energyRequirement = 5 then 3/2
  else 1

/-- `TaskModel.calculateBasePoints` (Task.ts:79-97):
`Math.round(priorityMultiplier * energyMultiplier)`. -/
def calculateBasePoints (priority energyRequirement : Int) : Int :=
  jsRound (priorityMultiplier priority * energyMultiplier energyRequirement)

/-- `TaskModel.create` (Task.ts:48-76): INSERT of a new row with `|| 3`
defaults on priority and energy requirement; the database fills `id`,
`status = 'pending'` (schema default) and `completed_at = NULL`;
`RETURNING *` yields the new row. -/
def TaskModel.create (db : List Task) (newId : String) (data : CreateTaskData) :
    List Task × Task :=
  let basePoints := calculateBasePoints (jsOrInt data.priority 3) (jsOrInt data.energy_requirement 3)
  let t : Task :=
    { id := newId
      user_id := data.user_id
      project_id := jsOrNullStr data.project_id
      title := data.title
      description := jsOrNullStr data.description
      energy_requirement := jsOrInt data.energy_requirement 3
      priority := jsOrInt data.priority 3
      status := "pending"
      due_date := data.due_date
      completed_at := none
      estimated_duration := jsOrNullInt data.estimated_duration
      actual_duration := none
      points := basePoints
      tags := data.tags.getD [] }
  (db ++ [t], t)

/-- `TaskModel.findById` (Task.ts:161-170): `SELECT * WHERE id = $1 AND
user_id = $2` through `db.one`, with the catch clause returning `null`
when no row matches (`id` is the primary key, so at most one row matches). -/
def TaskModel.findById (db : List Task) (id userId : String) : Option Task :=
  db.find? (fun t => t.id == id && t.user_id == userId)

/-- Input of `TaskModel.update`: `Partial<CreateTaskData>` restricted to the
fields the UPDATE statement can set (Task.ts:226-296). -/
structure UpdateTaskData where
  title : Option String := none
  description : Option String := none
  energy_requirement : Option Int := none
  priority : Option Int := none
  due_date : Option Int := none
  estimated_duration : Option Int := none
  project_id : Option String := none
  tags : Option (List Tag) := none
deriving DecidableEq

/-- Whether `TaskModel.update` puts at least one field into the SET clause. -/
def UpdateTaskData.hasField (d : UpdateTaskData) : Bool :=
  d.title.isSome || d.description.isSome || d.energy_requirement.isSome ||
  d.priority.isSome || d.due_date.isSome || d.estimated_duration.isSome ||
  d.project_id.isSome || d.tags.isSome

/-- The sequence of `if (data.x !== undefined)` field assignments of
`TaskModel.update` (Task.ts:231-284) applied to one row.  When `priority`
is supplied, points are recalculated as
`calculateBasePoints(data.priority, data.energy_requirement || 3)`
(Task.ts:254-259). -/
def applyUpdate (data : UpdateTaskData) (t : Task) : Task :=
  let t1 := match data.title with
    | some v => { t with title := v }
    | none => t
  let t2 := match data.description with
    | some v => { t1 with description := some v }
    | none => t1
  let t3 := match data.energy_requirement with
    | some v => { t2 with energy_requirement := v }
    | none => t2
  let t4 := match data.priority with
    | some p =>
        { t3 with priority := p,
                  points := calculateBasePoints p (jsOrInt data.energy_requirement 3) }
    | none => t3
  let t5 := match data.due_date with
    | some v => { t4 with due_date := some v }
    | none => t4
  let t6 := match data.estimated_duration with
    | some v => { t5 with estimated_duration := some v }
    | none => t5
  let t7 := match data.project_id with
    | some v => { t6 with project_id := some v }
    | none => t6
  match data.tags with
  | some v => { t7 with tags := v }
  | none => t7

/-- `TaskModel.update` (Task.ts:226-296): UPDATE of the row matching
`id AND user_id` with `RETURNING *` through `db.one`; an empty SET clause
is a SQL syntax error and a missing row makes `db.one` throw. -/
def TaskModel.update (db : List Task) (id userId : String) (data : UpdateTaskData) :
    Except String (List Task × Task) :=
  if data.hasField then
    match TaskModel.findById db id userId with
    | none => .error "No data returned from the query."
    | some t =>
        .ok (db.map (fun u => if u.id == id && u.user_id == userId then applyUpdate data u else u),
             applyUpdate data t)
  else .error "syntax error in SET clause"

/-- `TaskModel.complete` (Task.ts:299-335): look the task up, compute the
energy-match bonus (`if (currentEnergyLevel && task.energy_requirement ===
currentEnergyLevel)`, a truthiness test), then UPDATE the row to
`status = 'completed'`, `completed_at = NOW()`,
`actual_duration = actualDuration || null`.  Returns the updated row,
`points_earned` and `bonus_points`. -/
def TaskModel.complete (db : List Task) (id userId : String)
    (actualDuration : Option Int) (currentEnergyLevel : Option Int) (now : Int) :
    Except String (List Task × Task × Int × Int) :=
  match TaskModel.findById db id userId with
  | none => .error "Task not found"
  | some task =>
    let bonusPoints : Int :=
      match currentEnergyLevel with
      | some lvl =>
          if lvl ≠ 0 ∧ task.energy_requirement = lvl then
            jsRound ((task.points : ℚ) * (1/4))
          else 0
      | none => 0
    let totalPoints := task.points + bonusPoints
    let markDone : Task → Task := fun u =>
      { u with status := "completed"
               completed_at := some now
               actual_duration := jsOrNullInt actualDuration }
    .ok (db.map (fun u => if u.id == id && u.user_id == userId then markDone u else u),
         markDone task, totalPoints, bonusPoints)

/-- `TaskModel.delete` (Task.ts:338-344): DELETE of the matching rows,
returning whether at least one row was removed. -/
def TaskModel.deleteTask (db : List Task) (id userId : String) : List Task × Bool :=
  let db' := db.filter (fun t => !(t.id == id && t.user_id == userId))
  (db', db'.length < db.length)

/-- The optional filters of `TaskModel.getTasksWithEnergyMatch` and
`TaskModel.getUserTasks` (Task.ts:103-107). -/
structure TaskFilters where
  status : Option String := none
  project_id : Option String := none
  priority : Option Int := none
deriving DecidableEq

/-- SQL `CASE WHEN t.energy_requirement = $2 THEN true ELSE false END`
(Task.ts:112-115). -/
def energyMatch (req lvl : Int) : Bool := req == lvl

/-- SQL `CASE WHEN t.energy_requirement = $2 THEN 1.0 WHEN
ABS(t.energy_requirement - $2) = 1 THEN 0.5 ELSE 0.0 END` (Task.ts:116-120). -/
def energyMatchScore (req lvl : Int) : ℚ :=
  if req = lvl then 1
  else if (req - lvl).natAbs = 1 then 1/2
  else 0

/-- The WHERE clause of `getTasksWithEnergyMatch` (Task.ts:131-147):
`t.user_id = $1 AND t.status = 'pending'`, plus the project and priority
filters, each added only when JavaScript considers it truthy
(`if (filters?.project_id)`, `if (filters?.priority)`); `filters.status`
is never used. -/
def taskSelected (userId : String) (filters : TaskFilters) (t : Task) : Bool :=
  t.user_id == userId && t.status == "pending" &&
  (match filters.project_id with
   | some pid => if pid == "" then true else t.project_id == some pid
   | none => true) &&
  (match filters.priority with
   | some p => if p == 0 then true else t.priority == p
   | none => true)

/-- SQL `due_date ASC NULLS LAST` as a comparison on optional dates. -/
def dueDateLE : Option Int → Option Int → Bool
  | _, none => true
  | none, some _ => false
  | some a, some b => a ≤ b

/-- Three-key lexicographic ordering: first key descending (rational),
second key descending (integer), third key an optional date ascending with
nulls last.  `lex3 s p d a b` means `a` may come before `b`. -/
def lex3 {α : Type} (s : α → ℚ) (p : α → Int) (d : α → Option Int) (a b : α) : Prop :=
  s b < s a ∨
    (s a = s b ∧ (p b < p a ∨ (p a = p b ∧ dueDateLE (d a) (d b) = true)))

instance lex3.decidableRel {α : Type} (s : α → ℚ) (p : α → Int) (d : α → Option Int) :
    DecidableRel (lex3 s p d) := fun a b => by
  unfold lex3
  infer_instance

theorem dueDateLE_total (a b : Option Int) : dueDateLE a b = true ∨ dueDateLE b a = true := by
  cases a <;> cases b <;> simp [dueDateLE]
  omega

theorem dueDateLE_trans {a b c : Option Int} (h1 : dueDateLE a b = true)
    (h2 : dueDateLE b c = true) : dueDateLE a c = true := by
  cases a <;> cases b <;> cases c <;> simp_all [dueDateLE]
  omega

theorem lex3_total {α : Type} (s : α → ℚ) (p : α → Int) (d : α → Option Int) :
    ∀ a b, lex3 s p d a b ∨ lex3 s p d b a := by
  intro a b
  rcases lt_trichotomy (s a) (s b) with hs | hs | hs
  · exact Or.inr (Or.inl hs)
  · rcases lt_trichotomy (p a) (p b) with hp | hp | hp
    · exact Or.inr (Or.inr ⟨hs.symm, Or.inl hp⟩)
    · rcases dueDateLE_total (d a) (d b) with hd | hd
      · exact Or.inl (Or.inr ⟨hs, Or.inr ⟨hp, hd⟩⟩)
      · exact Or.inr (Or.inr ⟨hs.symm, Or.inr ⟨hp.symm, hd⟩⟩)
    · exact Or.inl (Or.inr ⟨hs, Or.inl hp⟩)
  · exact Or.inl (Or.inl hs)

theorem lex3_trans {α : Type} (s : α → ℚ) (p : α → Int) (d : α → Option Int) :
    ∀ a b c, lex3 s p d a b → lex3 s p d b c → lex3 s p d a c := by
  intro a b c h1 h2
  rcases h1 with h1 | ⟨hs1, h1⟩
  · rcases h2 with h2 | ⟨hs2, _⟩
    · exact Or.inl (h2.trans h1)
    · exact Or.inl (hs2 ▸ h1)
  · rcases h2 with h2 | ⟨hs2, h2⟩
    · exact Or.inl (hs1 ▸ h2)
    · refine Or.inr ⟨hs1.trans hs2, ?_⟩
      rcases h1 with h1 | ⟨hp1, h1⟩
      · rcases h2 with h2 | ⟨hp2, _⟩
        · exact Or.inl (h2.trans h1)
        · exact Or.inl (hp2 ▸ h1)
      · rcases h2 with h2 | ⟨hp2, h2⟩
        · exact Or.inl (hp1 ▸ h2)
        · exact Or.inr ⟨hp1.trans hp2, dueDateLE_trans h1 h2⟩

instance lex3.isTotal {α : Type} (s : α → ℚ) (p : α → Int) (d : α → Option Int) :
    IsTotal α (lex3 s p d) := ⟨lex3_total s p d⟩

instance lex3.isTrans {α : Type} (s : α → ℚ) (p : α → Int) (d : α → Option Int) :
    IsTrans α (lex3 s p d) := ⟨lex3_trans s p d⟩

/-- SQL `ORDER BY energy_match_score DESC, t.priority DESC, t.due_date ASC
NULLS LAST` (Task.ts:149) as a relation on task rows, for a queried energy
level. -/
def energyOrder (lvl : Int) : Task → Task → Prop :=
  lex3 (fun t => energyMatchScore t.energy_requirement lvl) (fun t => t.priority)
    (fun t => t.due_date)

instance energyOrder.decidableRel (lvl : Int) : DecidableRel (energyOrder lvl) :=
  lex3.decidableRel _ _ _

instance energyOrder.isTotal (lvl : Int) : IsTotal Task (energyOrder lvl) :=
  lex3.isTotal _ _ _

instance energyOrder.isTrans (lvl : Int) : IsTrans Task (energyOrder lvl) :=
  lex3.isTrans _ _ _

/-- A row returned by `getTasksWithEnergyMatch` (interface
`TaskWithEnergyMatch`, Task.ts:40-44). -/
structure TaskWithEnergyMatch extends Task where
  energy_match : Bool
  energy_match_score : ℚ
  bonus_points : Int
deriving DecidableEq

/-- `TaskModel.getTasksWithEnergyMatch` (Task.ts:100-158): SELECT of the
pending tasks of the user (plus truthy filters), with the computed
energy-match columns, ordered by the ORDER BY clause; the subsequent
`tasks.map` adds `bonus_points = energy_match ? Math.round(points * 0.25) : 0`.
The SQL sort is modelled by an insertion sort satisfying the ORDER BY keys. -/
def TaskModel.getTasksWithEnergyMatch (db : List Task) (userId : String)
    (currentEnergyLevel : Int) (filters : TaskFilters) : List TaskWithEnergyMatch :=
  let rows := db.filter (taskSelected userId filters)
  let ordered := List.insertionSort (energyOrder currentEnergyLevel) rows
  ordered.map (fun t =>
    { toTask := t
      energy_match := energyMatch t.energy_requirement currentEnergyLevel
      energy_match_score := energyMatchScore t.energy_requirement currentEnergyLevel
      bonus_points :=
        if energyMatch t.energy_requirement currentEnergyLevel then
          jsRound ((t.points : ℚ) * (1/4))
        else 0 })

/-- A row of the `energy_logs` table (interface `EnergyLog`, Energy.ts:3-11);
`logged_at` is epoch seconds (UTC). -/
structure EnergyLog where
  id : String
  user_id : String
  energy_level : Int
  mood_tags : Option (List String)
  notes : Option String
  logged_at : Int
deriving DecidableEq

/-- Input of `EnergyModel.logEnergy` (interface `CreateEnergyLog`,
Energy.ts:13-18). -/
structure CreateEnergyLog where
  user_id : String
  energy_level : Int
  mood_tags : Option (List String) := none
  notes : Option String := none
deriving DecidableEq

/-- `EnergyModel.logEnergy` (Energy.ts:30-43): INSERT of a new log with
`mood_tags || null` and `notes || null` (an array is always truthy in
JavaScript, so only `undefined` collapses; an empty-string note collapses);
the database fills `id` and `logged_at = NOW()`. -/
def EnergyModel.logEnergy (db : List EnergyLog) (newId : String) (now : Int)
    (data : CreateEnergyLog) : List EnergyLog × EnergyLog :=
  let log : EnergyLog :=
    { id := newId
      user_id := data.user_id
      energy_level := data.energy_level
      mood_tags := data.mood_tags
      notes := jsOrNullStr data.notes
      logged_at := now }
  (db ++ [log], log)

/-- `EnergyModel.getLatestEnergy` (Energy.ts:62-71): the user's log with the
greatest `logged_at` (`ORDER BY logged_at DESC LIMIT 1`), `none` when the
user has no log. -/
def EnergyModel.getLatestEnergy (db : List EnergyLog) (userId : String) : Option EnergyLog :=
  (db.filter (fun l => l.user_id == userId)).foldl
    (fun acc l =>
      match acc with
      | none => some l
      | some m => if m.logged_at < l.logged_at then some l else some m)
    none

/-- PostgreSQL `EXTRACT(HOUR FROM logged_at)` for an epoch-second timestamp. -/
def hourOf (t : Int) : Int := t % 86400 / 3600

/-- The user's logs of the trailing 30-day window:
`WHERE user_id = $1 AND logged_at > NOW() - INTERVAL '30 days'`
(Energy.ts:99-100, 123-124). -/
def windowLogs (db : List EnergyLog) (userId : String) (now : Int) : List EnergyLog :=
  db.filter (fun l => l.user_id == userId && now - 30 * 86400 < l.logged_at)

/-- One row of the hourly aggregation query (Energy.ts:117-127):
`EXTRACT(HOUR ...) as hour, AVG(energy_level) as avg_energy, COUNT(*)`. -/
structure HourlyEnergy where
  hour : Int
  avg_energy : ℚ
  count : Nat
deriving DecidableEq

/-- Sum of the energy levels of a list of logs, as a rational. -/
def sumLevels (logs : List EnergyLog) : ℚ :=
  ((logs.map (fun l => l.energy_level)).sum : Int)

/-- The logs of a given hour of day. -/
def hourGroup (logs : List EnergyLog) (h : Int) : List EnergyLog :=
  logs.filter (fun l => hourOf l.logged_at == h)

/-- Mean energy level of the logs of a given hour of day. -/
def hourMean (logs : List EnergyLog) (h : Int) : ℚ :=
  sumLevels (hourGroup logs h) / (hourGroup logs h).length

/-- The `GROUP BY EXTRACT(HOUR FROM logged_at)` aggregation (Energy.ts:117-127)
before its ORDER BY: one row per hour of day that has at least one log. -/
def hourlyRows (logs : List EnergyLog) : List HourlyEnergy :=
  (List.range 24).filterMap (fun h =>
    if (hourGroup logs (h : Int)).isEmpty then none
    else some { hour := (h : Int)
                avg_energy := hourMean logs (h : Int)
                count := (hourGroup logs (h : Int)).length })

/-- `ORDER BY avg_energy DESC` on hourly rows. -/
def hourlyOrder : HourlyEnergy → HourlyEnergy → Prop :=
  fun a b => b.avg_energy ≤ a.avg_energy

instance hourlyOrder.decidableRel : DecidableRel hourlyOrder := fun a b =>
  inferInstanceAs (Decidable (b.avg_energy ≤ a.avg_energy))

instance hourlyOrder.isTotal : IsTotal HourlyEnergy hourlyOrder :=
  ⟨fun a b => le_total b.avg_energy a.avg_energy⟩

instance hourlyOrder.isTrans : IsTrans HourlyEnergy hourlyOrder :=
  ⟨fun _ _ _ h1 h2 => le_trans h2 h1⟩

/-- The hourly rows sorted by mean energy descending (Energy.ts:126). -/
def hourlyEnergySorted (logs : List EnergyLog) : List HourlyEnergy :=
  List.insertionSort hourlyOrder (hourlyRows logs)

/-- The derived per-user pattern (interface `EnergyPattern`, Energy.ts:20-26);
the untyped `patterns` payload is modelled by its two components,
`total_logs` and `hourly_data`, with `{}` modelled as `0` and `[]`. -/
structure EnergyPattern where
  user_id : String
  average_energy : ℚ
  peak_hours : List Int
  low_hours : List Int
  total_logs : Nat
  hourly_data : List HourlyEnergy
deriving DecidableEq

/-- The `peakHours` selection (Energy.ts:129-132): from the mean-descending
ranking, `filter(h => h.avg_energy >= 4).map(h => h.hour).slice(0, 3)`. -/
def peakHoursSel (logs : List EnergyLog) : List Int :=
  (((hourlyEnergySorted logs).filter (fun h => 4 ≤ h.avg_energy)).map
    (fun h => h.hour)).take 3

/-- The `lowHours` selection (Energy.ts:134-137): from the mean-descending
ranking, `filter(h => h.avg_energy <= 2).map(h => h.hour).slice(-3)`
(`slice(-3)` keeps the last three entries, or all of them when fewer). -/
def lowHoursSel (logs : List EnergyLog) : List Int :=
  let q := ((hourlyEnergySorted logs).filter (fun h => h.avg_energy ≤ 2)).map
    (fun h => h.hour)
  q.drop (q.length - 3)

/-- `EnergyModel.calculateEnergyPattern` (Energy.ts:91-149).  The first query
aggregates the window logs (no row, hence the default pattern, exactly when
the window is empty); the second ranks hours by mean energy descending;
`peakHours` filters mean ≥ 4 and takes the first 3 (`slice(0, 3)`);
`lowHours` filters mean ≤ 2 and takes the last 3 (`slice(-3)`). -/
def EnergyModel.calculateEnergyPattern (db : List EnergyLog) (userId : String)
    (now : Int) : EnergyPattern :=
  let logs := windowLogs db userId now
  if logs.isEmpty then
    { user_id := userId
      average_energy := 3
      peak_hours := []
      low_hours := []
      total_logs := 0
      hourly_data := [] }
  else
    { user_id := userId
      average_energy := sumLevels logs / logs.length
      peak_hours := peakHoursSel logs
      low_hours := lowHoursSel logs
      total_logs := logs.length
      hourly_data := hourlyEnergySorted logs }

/-- An insight record (Energy.ts:160-187). -/
structure Insight where
  type : String
  message : String
  confidence : ℚ
deriving DecidableEq

/-- The insight-building part of `EnergyModel.getEnergyInsights`
(Energy.ts:156-188): three conditional pushes onto the `insights` array. -/
def EnergyModel.energyInsights (pattern : EnergyPattern) (latest : Option EnergyLog)
    (currentHour : Int) : List Insight :=
  let insights : List Insight := []
  let insights :=
    if pattern.peak_hours.length > 0 then
      insights ++
        [{ type := "peak_hours"
           message := "Your peak energy hours are: " ++
             String.intercalate ", " (pattern.peak_hours.map toString) ++ ":00"
           confidence := 85/100 }]
    else insights
  let insights :=
    match latest with
    | some latestLog =>
        if pattern.peak_hours.contains currentHour ∧ latestLog.energy_level < 4 then
          insights ++
            [{ type := "energy_mismatch"
               message := "This is usually your peak time, but your energy is lower than expected"
               confidence := 75/100 }]
        else insights
    | none => insights
  if pattern.average_energy < 3 then
    insights ++
      [{ type := "low_average"
         message := "Your average energy has been low recently. Consider adjusting your schedule or taking breaks."
         confidence := 8/10 }]
  else insights

/-- `EnergyModel.getEnergyInsights` (Energy.ts:152-195): composes the pattern,
the latest log and the insight rules; `new Date().getHours()` is the
injected `currentHour`. -/
def EnergyModel.getEnergyInsights (db : List EnergyLog) (userId : String)
    (now : Int) (currentHour : Int) :
    EnergyPattern × Option EnergyLog × List Insight :=
  let pattern := EnergyModel.calculateEnergyPattern db userId now
  let latest := EnergyModel.getLatestEnergy db userId
  (pattern, latest, EnergyModel.energyInsights pattern latest currentHour)

/-- The request body of the energy-logging endpoint
(`energy.controller.ts:19-47`). -/
structure LogEnergyBody where
  energy_level : Int
  mood_tags : Option (List String) := none
  notes : Option String := none
deriving DecidableEq

/-- `logEnergySchema` (energy.controller.ts:6-10): zod object requiring an
integer `energy_level` with `min(1).max(5)`, optional `mood_tags` (array of
strings, captured by the typing) and an optional note of at most 500
characters. -/
def logEnergySchemaValid (b : LogEnergyBody) : Bool :=
  decide (1 ≤ b.energy_level) && decide (b.energy_level ≤ 5) &&
  (match b.notes with
   | some s => decide (s.length ≤ 500)
   | none => true)

/-- `EnergyController.logEnergy` (energy.controller.ts:19-47): 401 without an
authenticated user; 400 when `logEnergySchema.parse` throws a `ZodError`
(before `EnergyModel.logEnergy` is reached); otherwise the model inserts the
log and 201 is returned.  The result is the HTTP status paired with the
store after the request. -/
def EnergyController.logEnergy (userId : Option String) (body : LogEnergyBody)
    (db : List EnergyLog) (newId : String) (now : Int) : Nat × List EnergyLog :=
  match userId with
  | none => (401, db)
  | some uid =>
      if logEnergySchemaValid body then
        (201, (EnergyModel.logEnergy db newId now
                { user_id := uid
                  energy_level := body.energy_level
                  mood_tags := body.mood_tags
                  notes := body.notes }).1)
      else (400, db)

/-!  Fixtures: concrete stores used by counterexamples and witnesses. -/

/-- A task satisfying the points invariant: priority 3, energy requirement 5,
points `round(40 × 1.5) = 60`. -/
def c1Task : Task :=
  { id := "t1"
    user_id := "u1"
    project_id := none
    title := "write report"
    description := none
    energy_requirement := 5
    priority := 3
    status := "pending"
    due_date := none
    completed_at := none
    estimated_duration := none
    actual_duration := none
    points := 60
    tags := [] }

/-- An update supplying only `priority`. -/
def c1Update : UpdateTaskData := { priority := some 5 }

/-- An already-completed task: points 40, energy requirement 3. -/
def c6Task : Task :=
  { id := "t6"
    user_id := "u6"
    project_id := none
    title := "old chore"
    description := none
    energy_requirement := 3
    priority := 3
    status := "completed"
    due_date := none
    completed_at := some 500
    estimated_duration := none
    actual_duration := none
    points := 40
    tags := [] }

/-- An update touching only the title. -/
def c6Update : UpdateTaskData := { title := some "still done" }

/-- Ranking fixture A: priority 5, no due date, energy requirement 2. -/
def taskA : Task :=
  { id := "A"
    user_id := "u"
    project_id := none
    title := "A"
    description := none
    energy_requirement := 2
    priority := 5
    status := "pending"
    due_date := none
    completed_at := none
    estimated_duration := none
    actual_duration := none
    points := 15
    tags := [] }

/-- Ranking fixture B: priority 5, due tomorrow (epoch 200 000), energy
requirement 2. -/
def taskB : Task :=
  { taskA with id := "B", title := "B", due_date := some 200000 }

/-- Ranking fixture C: priority 3, due today (epoch 100 000), energy
requirement 2. -/
def taskC : Task :=
  { taskA with id := "C", title := "C", priority := 3, due_date := some 100000,
               points := 30 }

/-- Round-half-up rounding, as named by the specification. -/
def roundHalfUp (q : ℚ) : Int := ⌊q + 1/2⌋

/-!  Claim theorems. -/

/-- C2: for all integer inputs, `calculateBasePoints` returns the
round-half-up of the product of the two lookup multipliers; `priority`
outside `{1..5}` falls back to 40 and `energy_requirement` outside `{1..5}`
falls back to 1.0; the table entries and the quoted values (3,3) → 40,
(5,5) → 225, (1,1) → 5 and (99,99) → 40 all hold.  The function is a total
pure function of its two arguments. -/
theorem calculateBasePoints_correct :
    (∀ p e : Int, calculateBasePoints p e = roundHalfUp (priorityMultiplier p * energyMultiplier e)) ∧
    (∀ p : Int, p ≠ 1 → p ≠ 2 → p ≠ 3 → p ≠ 4 → p ≠ 5 → priorityMultiplier p = 40) ∧
    (∀ e : Int, e ≠ 1 → e ≠ 2 → e ≠ 3 → e ≠ 4 → e ≠ 5 → energyMultiplier e = 1) ∧
    (priorityMultiplier 1 = 10 ∧ priorityMultiplier 2 = 20 ∧ priorityMultiplier 3 = 40 ∧
      priorityMultiplier 4 = 80 ∧ priorityMultiplier 5 = 150) ∧
    (energyMultiplier 1 = 1/2 ∧ energyMultiplier 2 = 3/4 ∧ energyMultiplier 3 = 1 ∧
      energyMultiplier 4 = 5/4 ∧ energyMultiplier 5 = 3/2) ∧
    calculateBasePoints 3 3 = 40 ∧
    calculateBasePoints 5 5 = 225 ∧
    calculateBasePoints 1 1 = 5 ∧
    calculateBasePoints 99 99 = 40 := by
  refine ⟨fun p e => rfl, ?_, ?_, by decide, by decide, by decide, by decide, by decide, by decide⟩
  · intro p h1 h2 h3 h4 h5
    simp [priorityMultiplier, h1, h2, h3, h4, h5]
  · intro e h1 h2 h3 h4 h5
    simp [energyMultiplier, h1, h2, h3, h4, h5]

/-- Witness for C2 at the out-of-range input 99. -/
theorem calculateBasePoints_correct_witness :
    priorityMultiplier 99 = 40 ∧ energyMultiplier 99 = 1 :=
  ⟨calculateBasePoints_correct.2.1 99 (by decide) (by decide) (by decide) (by decide) (by decide),
   calculateBasePoints_correct.2.2.1 99 (by decide) (by decide) (by decide) (by decide) (by decide)⟩

/-- C1 counterexample: on a store holding a task with stored
`energy_requirement = 5` and `priority = 3` (points 60, satisfying the
invariant), an update supplying only `priority = 5` recomputes the points as
`calculateBasePoints(5, 3) = 150` — using the `|| 3` default instead of the
task's stored energy requirement — while the claimed invariant requires
`round(150 × 1.5) = 225` for the resulting (priority 5, energy 5) task. -/
theorem update_breaks_points_invariant :
    (TaskModel.update [c1Task] "t1" "u1" c1Update).toOption.map
        (fun r => (r.2.priority, r.2.energy_requirement, r.2.points)) = some (5, 5, 150) ∧
    calculateBasePoints 5 5 = 225 ∧ (150 : Int) ≠ 225 := by decide

/-- The points stored by `applyUpdate`: recomputed only when the update
supplies `priority`, and then from `data.energy_requirement || 3`. -/
theorem applyUpdate_points (data : UpdateTaskData) (t : Task) :
    (applyUpdate data t).points =
      (match data.priority with
       | some p => calculateBasePoints p (jsOrInt data.energy_requirement 3)
       | none => t.points) := by
  obtain ⟨f1, f2, f3, f4, f5, f6, f7, f8⟩ := data
  cases f1 <;> cases f2 <;> cases f3 <;> cases f4 <;> cases f5 <;> cases f6 <;>
    cases f7 <;> cases f8 <;> rfl

/-- C1 amended: after `create` the stored points always equal
`calculateBasePoints` of the stored priority and energy requirement, but
`update` recomputes points only when it supplies `priority`, and then uses
the energy requirement supplied in the same update (or the default 3),
ignoring the task's stored value; an update that does not supply `priority`
— including one that changes only `energy_requirement` — leaves the stored
points unchanged. -/
theorem points_recomputation_amended :
    (∀ db newId data,
       ((TaskModel.create db newId data).2).points =
         calculateBasePoints ((TaskModel.create db newId data).2).priority
           ((TaskModel.create db newId data).2).energy_requirement) ∧
    (∀ db id userId data db' t',
       TaskModel.update db id userId data = .ok (db', t') →
       ∃ t0, TaskModel.findById db id userId = some t0 ∧
         t'.points =
           (match data.priority with
            | some p => calculateBasePoints p (jsOrInt data.energy_requirement 3)
            | none => t0.points)) := by
  refine ⟨fun db newId data => rfl, ?_⟩
  intro db id userId data db' t' h
  rw [TaskModel.update] at h
  by_cases hf : data.hasField
  · rw [if_pos hf] at h
    cases hfind : TaskModel.findById db id userId with
    | none => rw [hfind] at h; cases h
    | some t0 =>
        rw [hfind, Except.ok.injEq, Prod.mk.injEq] at h
        exact ⟨t0, rfl, h.2 ▸ applyUpdate_points data t0⟩
  · rw [if_neg hf] at h
    cases h

/-- Witness for C1 amended: the update of the C1 store succeeds and the
returned points follow the amended rule. -/
theorem points_recomputation_amended_witness :
    ∃ t0, TaskModel.findById [c1Task] "t1" "u1" = some t0 ∧
      (applyUpdate c1Update c1Task).points =
        (match c1Update.priority with
         | some p => calculateBasePoints p (jsOrInt c1Update.energy_requirement 3)
         | none => t0.points) :=
  points_recomputation_amended.2 [c1Task] "t1" "u1" c1Update
    [applyUpdate c1Update c1Task] (applyUpdate c1Update c1Task) (by rfl)

/-- C10: `getTasksWithEnergyMatch` never applies `filters.status`: two calls
differing only in the status filter return the same list, and every
returned task has status `pending`. -/
theorem getTasksWithEnergyMatch_ignores_status :
    (∀ (db : List Task) (userId : String) (lvl : Int) (filters : TaskFilters)
       (s1 s2 : Option String),
       TaskModel.getTasksWithEnergyMatch db userId lvl { filters with status := s1 } =
       TaskModel.getTasksWithEnergyMatch db userId lvl { filters with status := s2 }) ∧
    (∀ (db : List Task) (userId : String) (lvl : Int) (filters : TaskFilters)
       (w : TaskWithEnergyMatch),
       w ∈ TaskModel.getTasksWithEnergyMatch db userId lvl filters →
       w.status = "pending") := by
  constructor
  · intro db userId lvl filters s1 s2
    cases filters
    rfl
  · intro db userId lvl filters w hw
    simp only [TaskModel.getTasksWithEnergyMatch, List.mem_map] at hw
    obtain ⟨t, ht, rfl⟩ := hw
    have ht' : t ∈ db.filter (taskSelected userId filters) :=
      (List.mem_insertionSort _).1 ht
    have hsel := List.of_mem_filter ht'
    simp only [taskSelected, Bool.and_eq_true, beq_iff_eq] at hsel
    exact hsel.1.1.2

/-- Witness for C10: membership discharged on a one-task store. -/
theorem getTasksWithEnergyMatch_ignores_status_witness :
    ({ toTask := c1Task
       energy_match := true
       energy_match_score := 1
       bonus_points := 15 : TaskWithEnergyMatch }).status = "pending" :=
  getTasksWithEnergyMatch_ignores_status.2 [c1Task] "u1" 5 {} _ (by decide)

/-- C3: every task returned by `getTasksWithEnergyMatch` for a queried level
in 1..5 carries `energy_match` true exactly when its requirement equals the
level, the 1.0 / 0.5 / 0.0 proximity score, and a bonus of
`round(points × 0.25)` exactly when `energy_match` holds. -/
theorem energy_match_fields_correct :
    ∀ (db : List Task) (userId : String) (lvl : Int) (filters : TaskFilters)
      (w : TaskWithEnergyMatch),
      1 ≤ lvl → lvl ≤ 5 →
      w ∈ TaskModel.getTasksWithEnergyMatch db userId lvl filters →
      ((w.energy_match = true) ↔ w.energy_requirement = lvl) ∧
      w.energy_match_score =
        (if w.energy_requirement = lvl then 1
         else if (w.energy_requirement - lvl).natAbs = 1 then 1/2 else 0) ∧
      w.bonus_points =
        (if w.energy_match = true then jsRound ((w.points : ℚ) * (1/4)) else 0) := by
  intro db userId lvl filters w _ _ hw
  simp only [TaskModel.getTasksWithEnergyMatch, List.mem_map] at hw
  obtain ⟨t, -, rfl⟩ := hw
  refine ⟨by simp [energyMatch], rfl, ?_⟩
  cases h : energyMatch t.energy_requirement lvl <;> simp [h]

/-- Witness for C3 on a one-task store queried at level 5. -/
theorem energy_match_fields_correct_witness :
    (({ toTask := c1Task
        energy_match := true
        energy_match_score := 1
        bonus_points := 15 : TaskWithEnergyMatch }).energy_match = true ↔
      ({ toTask := c1Task
         energy_match := true
         energy_match_score := 1
         bonus_points := 15 : TaskWithEnergyMatch }).energy_requirement = 5) ∧
    ({ toTask := c1Task
       energy_match := true
       energy_match_score := 1
       bonus_points := 15 : TaskWithEnergyMatch }).energy_match_score =
      (if ({ toTask := c1Task
             energy_match := true
             energy_match_score := 1
             bonus_points := 15 : TaskWithEnergyMatch }).energy_requirement = 5 then 1
       else if (({ toTask := c1Task
                   energy_match := true
                   energy_match_score := 1
                   bonus_points := 15 : TaskWithEnergyMatch }).energy_requirement - 5).natAbs = 1
            then 1/2 else 0) ∧
    ({ toTask := c1Task
       energy_match := true
       energy_match_score := 1
       bonus_points := 15 : TaskWithEnergyMatch }).bonus_points =
      (if ({ toTask := c1Task
             energy_match := true
             energy_match_score := 1
             bonus_points := 15 : TaskWithEnergyMatch }).energy_match = true then
        jsRound ((({ toTask := c1Task
                     energy_match := true
                     energy_match_score := 1
                     bonus_points := 15 : TaskWithEnergyMatch }).points : ℚ) * (1/4))
       else 0) :=
  energy_match_fields_correct [c1Task] "u1" 5 {} _ (by decide) (by decide) (by decide)

/-- The claim's ordering on returned rows: `energy_match_score` descending,
then `priority` descending, then `due_date` ascending with nulls last. -/
def rowOrder : TaskWithEnergyMatch → TaskWithEnergyMatch → Prop :=
  lex3 (fun w => w.energy_match_score) (fun w => w.priority) (fun w => w.due_date)

/-- C4: the returned list is always pairwise ordered by score descending,
priority descending, due date ascending nulls last; on the quoted fixture —
A (priority 5, no due date), B (priority 5, due tomorrow), C (priority 3,
due today), all matching the queried level — the order is [B, A, C]. -/
theorem getTasksWithEnergyMatch_sorted :
    (∀ (db : List Task) (userId : String) (lvl : Int) (filters : TaskFilters),
       (TaskModel.getTasksWithEnergyMatch db userId lvl filters).Pairwise rowOrder) ∧
    (TaskModel.getTasksWithEnergyMatch [taskA, taskB, taskC] "u" 2 {}).map
        (fun w => w.id) = ["B", "A", "C"] := by
  constructor
  · intro db userId lvl filters
    have hs := List.sorted_insertionSort (energyOrder lvl)
      (db.filter (taskSelected userId filters))
    simp only [TaskModel.getTasksWithEnergyMatch]
    exact List.Pairwise.map _ (fun a b hab => hab) hs
  · decide

/-- C5: `complete` fails with "Task not found" exactly when no task matches
the id/owner pair; on success (with a supplied level inside the 1..5 domain,
where the code's truthiness test cannot misfire) the bonus is
`round(points × 0.25)` exactly when the supplied level equals the task's
requirement, and `points_earned = points + bonus`. -/
theorem complete_spec :
    ∀ (db : List Task) (id userId : String) (actualDuration : Option Int)
      (currentEnergyLevel : Option Int) (now : Int),
      (∀ l, currentEnergyLevel = some l → 1 ≤ l ∧ l ≤ 5) →
      ((TaskModel.complete db id userId actualDuration currentEnergyLevel now =
          .error "Task not found") ↔ TaskModel.findById db id userId = none) ∧
      (∀ t0, TaskModel.findById db id userId = some t0 →
        ∃ db' t',
          TaskModel.complete db id userId actualDuration currentEnergyLevel now =
            .ok (db', t',
              t0.points +
                (if currentEnergyLevel = some t0.energy_requirement then
                   jsRound ((t0.points : ℚ) * (1/4)) else 0),
              (if currentEnergyLevel = some t0.energy_requirement then
                 jsRound ((t0.points : ℚ) * (1/4)) else 0))) := by
  intro db id userId ad lvl now hdom
  constructor
  · cases hfind : TaskModel.findById db id userId with
    | none => simp [TaskModel.complete, hfind]
    | some t0 => simp [TaskModel.complete, hfind]
  · intro t0 hfind
    refine ⟨db.map (fun u => if u.id == id && u.user_id == userId then
        { u with status := "completed", completed_at := some now,
                 actual_duration := jsOrNullInt ad } else u),
      { t0 with status := "completed", completed_at := some now,
                actual_duration := jsOrNullInt ad }, ?_⟩
    cases lvl with
    | none => simp [TaskModel.complete, hfind]
    | some l =>
        have hl := hdom l rfl
        have hl0 : l ≠ 0 := by omega
        by_cases he : t0.energy_requirement = l
        · simp [TaskModel.complete, hfind, he, hl0]
        · have he' : ¬ (l = t0.energy_requirement) := fun h => he h.symm
          simp [TaskModel.complete, hfind, he, he']

/-- Witness for C5: completing the C1 task at matching level 5 yields
bonus 15 and 75 points earned. -/
theorem complete_spec_witness :
    ∃ db' t',
      TaskModel.complete [c1Task] "t1" "u1" none (some 5) 1000 =
        .ok (db', t',
          c1Task.points +
            (if (some 5 : Option Int) = some c1Task.energy_requirement then
               jsRound ((c1Task.points : ℚ) * (1/4)) else 0),
          (if (some 5 : Option Int) = some c1Task.energy_requirement then
             jsRound ((c1Task.points : ℚ) * (1/4)) else 0)) :=
  (complete_spec [c1Task] "t1" "u1" none (some 5) 1000
      (fun l h => by injection h with h2; omega)).2 c1Task (by decide)

/-- C6 counterexample: `complete` has no status guard.  On a store holding an
already-completed task (completed at 500, points 40, energy requirement 3),
invoking `complete` again at matching level 3 succeeds, performs the scoring
computation again — returning `points_earned = 50` and `bonus_points = 10` —
and overwrites `completed_at` with the new call time 1000. -/
theorem complete_rescores_completed_task :
    (TaskModel.complete [c6Task] "t6" "u6" none (some 3) 1000).toOption.map
        (fun r => (r.2.1.status, r.2.1.completed_at, r.2.2.1, r.2.2.2)) =
      some ("completed", some 1000, 50, 10) ∧
    c6Task.status = "completed" ∧ c6Task.completed_at = some 500 ∧
    (10 : Int) ≠ 0 := by decide

/-- The status stored by `applyUpdate`: `update` can never modify `status`
(it is not a settable field of the UPDATE statement). -/
theorem applyUpdate_status (data : UpdateTaskData) (t : Task) :
    (applyUpdate data t).status = t.status := by
  obtain ⟨f1, f2, f3, f4, f5, f6, f7, f8⟩ := data
  cases f1 <;> cases f2 <;> cases f3 <;> cases f4 <;> cases f5 <;> cases f6 <;>
    cases f7 <;> cases f8 <;> rfl

/-- C6 amended: the status field is indeed terminal — `update` never changes
any stored status, `complete` only ever writes `completed`, and `delete`
only removes rows — but `complete` does not guard on the current status:
invoking it on an already-completed task succeeds and performs the scoring
computation again (returning `points_earned = points + bonus` a second
time), rather than performing no further scoring transition. -/
theorem status_terminal_amended :
    (∀ (db : List Task) (id userId : String) (data : UpdateTaskData)
       (db' : List Task) (t' : Task),
       TaskModel.update db id userId data = .ok (db', t') →
       db'.map Task.status = db.map Task.status) ∧
    (∀ (db : List Task) (id userId : String) (ad lvl : Option Int) (now : Int)
       (db' : List Task) (t' : Task) (pe bp : Int),
       TaskModel.complete db id userId ad lvl now = .ok (db', t', pe, bp) →
       db'.map Task.status =
         db.map (fun u => if u.id == id && u.user_id == userId then "completed" else u.status)) ∧
    (∀ (db : List Task) (id userId : String),
       ((TaskModel.deleteTask db id userId).1).Sublist db) ∧
    (∀ (db : List Task) (id userId : String) (ad lvl : Option Int) (now : Int)
       (t0 : Task),
       TaskModel.findById db id userId = some t0 →
       t0.status = "completed" →
       ∃ db' t' bp, TaskModel.complete db id userId ad lvl now =
         .ok (db', t', t0.points + bp, bp)) := by
  refine ⟨?_, ?_, ?_, ?_⟩
  · intro db id userId data db' t' h
    rw [TaskModel.update] at h
    by_cases hf : data.hasField
    · rw [if_pos hf] at h
      cases hfind : TaskModel.findById db id userId with
      | none => rw [hfind] at h; cases h
      | some t0 =>
          rw [hfind, Except.ok.injEq, Prod.mk.injEq] at h
          obtain ⟨h1, -⟩ := h
          subst h1
          rw [List.map_map]
          refine List.map_congr_left ?_
          intro u _
          by_cases hc : (u.id == id && u.user_id == userId) = true
          · simp [Function.comp, hc, applyUpdate_status]
          · simp [Function.comp, hc]
    · rw [if_neg hf] at h
      cases h
  · intro db id userId ad lvl now db' t' pe bp h
    cases hfind : TaskModel.findById db id userId with
    | none => simp [TaskModel.complete, hfind] at h
    | some t0 =>
        simp only [TaskModel.complete, hfind, Except.ok.injEq, Prod.mk.injEq] at h
        obtain ⟨h1, -⟩ := h
        subst h1
        rw [List.map_map]
        refine List.map_congr_left ?_
        intro u _
        by_cases hc : (u.id == id && u.user_id == userId) = true
        · simp [Function.comp, hc]
        · simp [Function.comp, hc]
  · intro db id userId
    exact List.filter_sublist db
  · intro db id userId ad lvl now t0 hfind _
    refine ⟨db.map (fun u => if u.id == id && u.user_id == userId then
        { u with status := "completed", completed_at := some now,
                 actual_duration := jsOrNullInt ad } else u),
      { t0 with status := "completed", completed_at := some now,
                actual_duration := jsOrNullInt ad },
      (match lvl with
       | some l => if l ≠ 0 ∧ t0.energy_requirement = l then
            jsRound ((t0.points : ℚ) * (1/4)) else 0
       | none => 0), ?_⟩
    simp [TaskModel.complete, hfind]

/-- Witness for C6 amended: a title-only update of the completed C6 store
leaves the status column unchanged, and re-completing that store succeeds
with a points award. -/
theorem status_terminal_amended_witness :
    ([applyUpdate c6Update c6Task].map Task.status = [c6Task].map Task.status) ∧
    (∃ db' t' bp, TaskModel.complete [c6Task] "t6" "u6" none (some 3) 1000 =
       .ok (db', t', c6Task.points + bp, bp)) :=
  ⟨status_terminal_amended.1 [c6Task] "t6" "u6" c6Update
      [applyUpdate c6Update c6Task] (applyUpdate c6Update c6Task) (by rfl),
   status_terminal_amended.2.2.2 [c6Task] "t6" "u6" none (some 3) 1000 c6Task
      (by decide) (by decide)⟩

/-- The pattern of the C8 example: average energy 2.5 and no peak hours. -/
def c8Pattern : EnergyPattern :=
  { user_id := "u8"
    average_energy := 5/2
    peak_hours := []
    low_hours := []
    total_logs := 4
    hourly_data := [] }

/-- C8: the insights list is exactly the concatenation, in insertion order,
of the `peak_hours` insight (confidence 0.85) when `peak_hours` is
non-empty, the `energy_mismatch` insight (confidence 0.75) when a latest
log exists, the current hour is a peak hour and its energy level is below
4, and the `low_average` insight (confidence 0.80) when the average energy
is below 3; in particular a pattern with average 2.5 and no peak hours
yields exactly the `low_average` insight. -/
theorem energyInsights_spec :
    (∀ (pattern : EnergyPattern) (latest : Option EnergyLog) (currentHour : Int),
       EnergyModel.energyInsights pattern latest currentHour =
         (if pattern.peak_hours ≠ [] then
            [{ type := "peak_hours"
               message := "Your peak energy hours are: " ++
                 String.intercalate ", " (pattern.peak_hours.map toString) ++ ":00"
               confidence := 85/100 }]
          else []) ++
         (match latest with
          | some latestLog =>
              if currentHour ∈ pattern.peak_hours ∧ latestLog.energy_level < 4 then
                [{ type := "energy_mismatch"
                   message := "This is usually your peak time, but your energy is lower than expected"
                   confidence := 75/100 }]
              else []
          | none => []) ++
         (if pattern.average_energy < 3 then
            [{ type := "low_average"
               message := "Your average energy has been low recently. Consider adjusting your schedule or taking breaks."
               confidence := 8/10 }]
          else [])) ∧
    (∀ (latest : Option EnergyLog) (currentHour : Int),
       (EnergyModel.energyInsights c8Pattern latest currentHour).map
           (fun i => (i.type, i.confidence)) = [("low_average", 8/10)]) := by
  constructor
  · intro pattern latest currentHour
    have hne : (pattern.peak_hours.length > 0) ↔ pattern.peak_hours ≠ [] :=
      List.length_pos
    cases latest with
    | none =>
        simp only [EnergyModel.energyInsights]
        by_cases h1 : pattern.peak_hours = [] <;>
          by_cases h3 : pattern.average_energy < 3 <;>
            simp [h1, hne, h3]
    | some latestLog =>
        simp only [EnergyModel.energyInsights]
        by_cases h1 : pattern.peak_hours = [] <;>
          by_cases h2 : currentHour ∈ pattern.peak_hours ∧ latestLog.energy_level < 4 <;>
            by_cases h3 : pattern.average_energy < 3 <;>
              simp [h1, hne, h2, h3, List.elem_iff]
  · intro latest currentHour
    have h3 : (5/2 : ℚ) < 3 := by norm_num
    cases latest with
    | none => simp [EnergyModel.energyInsights, c8Pattern, h3]
    | some latestLog => simp [EnergyModel.energyInsights, c8Pattern, h3]

/-- C9: an energy-logging request whose `energy_level` lies outside 1..5 is
rejected by the zod schema before the model runs: the store is unchanged
(no energy log record is created), and when the request is authenticated
the response is the 400 ValidationError. -/
theorem logEnergy_validation :
    ∀ (userId : Option String) (body : LogEnergyBody) (db : List EnergyLog)
      (newId : String) (now : Int),
      body.energy_level < 1 ∨ 5 < body.energy_level →
      (EnergyController.logEnergy userId body db newId now).2 = db ∧
      (∀ uid, userId = some uid →
        EnergyController.logEnergy userId body db newId now = (400, db)) := by
  intro userId body db newId now hbad
  have hv : logEnergySchemaValid body = false := by
    rcases hbad with h | h <;>
      simp [logEnergySchemaValid, decide_eq_true_eq] <;> omega
  cases userId with
  | none =>
      refine ⟨rfl, ?_⟩
      intro uid h
      cases h
  | some uid =>
      refine ⟨?_, ?_⟩
      · simp [EnergyController.logEnergy, hv]
      · intro uid' h
        cases h
        simp [EnergyController.logEnergy, hv]

/-- Witness for C9: a request at level 9 leaves the store unchanged and
returns 400. -/
theorem logEnergy_validation_witness :
    (EnergyController.logEnergy (some "u9") { energy_level := 9 } [] "e1" 0).2 = [] ∧
    (∀ uid, (some "u9" : Option String) = some uid →
      EnergyController.logEnergy (some "u9") { energy_level := 9 } [] "e1" 0 = (400, [])) :=
  logEnergy_validation (some "u9") { energy_level := 9 } [] "e1" 0 (by decide)

/-- Each row of the hourly aggregation carries the mean of its hour group. -/
theorem avg_eq_hourMean_of_mem {logs : List EnergyLog} {r : HourlyEnergy}
    (hr : r ∈ hourlyRows logs) : r.avg_energy = hourMean logs r.hour := by
  simp only [hourlyRows, List.mem_filterMap] at hr
  obtain ⟨h, -, hf⟩ := hr
  by_cases he : (hourGroup logs (h : Int)).isEmpty
  · rw [if_pos he] at hf
    cases hf
  · rw [if_neg he] at hf
    injection hf with hf
    subst hf
    rfl

/-- The ranked hourly list is sorted by mean descending. -/
theorem hourlyEnergySorted_pairwise (logs : List EnergyLog) :
    (hourlyEnergySorted logs).Pairwise hourlyOrder :=
  List.sorted_insertionSort hourlyOrder (hourlyRows logs)

/-- Membership in the ranked hourly list. -/
theorem mem_hourlyEnergySorted {logs : List EnergyLog} {r : HourlyEnergy} :
    r ∈ hourlyEnergySorted logs ↔ r ∈ hourlyRows logs :=
  List.mem_insertionSort _

/-- Ranking does not change how many rows satisfy a predicate. -/
theorem length_filter_hourlyEnergySorted (logs : List EnergyLog)
    (q : HourlyEnergy → Bool) :
    ((hourlyEnergySorted logs).filter q).length = ((hourlyRows logs).filter q).length :=
  ((List.perm_insertionSort hourlyOrder (hourlyRows logs)).filter q).length_eq

/-- Every selected peak hour has mean at least 4. -/
theorem peakHoursSel_mem {logs : List EnergyLog} {h : Int}
    (hh : h ∈ peakHoursSel logs) : 4 ≤ hourMean logs h := by
  rw [peakHoursSel, ← List.map_take] at hh
  obtain ⟨x, hx, rfl⟩ := List.mem_map.mp hh
  have hxF := (List.take_sublist _ _).subset hx
  have hxS := List.mem_filter.mp hxF
  have h4 : 4 ≤ x.avg_energy := by simpa using hxS.2
  rw [← avg_eq_hourMean_of_mem (mem_hourlyEnergySorted.mp hxS.1)]
  exact h4

/-- The peak selection keeps `min 3 (number of qualifying hours)` entries. -/
theorem peakHoursSel_length (logs : List EnergyLog) :
    (peakHoursSel logs).length =
      min 3 (((hourlyRows logs).filter (fun r => 4 ≤ r.avg_energy)).length) := by
  rw [peakHoursSel, List.length_take, List.length_map,
    length_filter_hourlyEnergySorted]

/-- The peak selection is ordered by hour mean descending. -/
theorem peakHoursSel_sorted (logs : List EnergyLog) :
    (peakHoursSel logs).Pairwise
      (fun h h' => hourMean logs h' ≤ hourMean logs h) := by
  rw [peakHoursSel, ← List.map_take, List.pairwise_map]
  have hF : ((hourlyEnergySorted logs).filter
      (fun h => 4 ≤ h.avg_energy)).Pairwise hourlyOrder :=
    (hourlyEnergySorted_pairwise logs).filter _
  have hT : (((hourlyEnergySorted logs).filter
      (fun h => 4 ≤ h.avg_energy)).take 3).Pairwise hourlyOrder :=
    hF.sublist (List.take_sublist _ _)
  refine hT.imp_of_mem ?_
  intro a b ha hb hab
  have ha' := avg_eq_hourMean_of_mem (mem_hourlyEnergySorted.mp
    (List.mem_filter.mp ((List.take_sublist _ _).subset ha)).1)
  have hb' := avg_eq_hourMean_of_mem (mem_hourlyEnergySorted.mp
    (List.mem_filter.mp ((List.take_sublist _ _).subset hb)).1)
  rw [← ha', ← hb']
  exact hab

/-- `slice(0, 3)` keeps the top of the ranking: every qualifying hour that is
left out has a mean at most that of every selected peak hour. -/
theorem peakHoursSel_dominates {logs : List EnergyLog} {r : HourlyEnergy}
    (hr : r ∈ hourlyRows logs) (hq : 4 ≤ r.avg_energy)
    (hn : r.hour ∉ peakHoursSel logs) :
    ∀ h' ∈ peakHoursSel logs, r.avg_energy ≤ hourMean logs h' := by
  intro h' hh'
  have hrF : r ∈ (hourlyEnergySorted logs).filter (fun h => 4 ≤ h.avg_energy) :=
    List.mem_filter.mpr ⟨mem_hourlyEnergySorted.mpr hr, by simpa using hq⟩
  have hrtake : r ∉ ((hourlyEnergySorted logs).filter
      (fun h => 4 ≤ h.avg_energy)).take 3 := by
    intro hc
    refine hn ?_
    rw [peakHoursSel, ← List.map_take]
    exact List.mem_map_of_mem _ hc
  have hrdrop : r ∈ ((hourlyEnergySorted logs).filter
      (fun h => 4 ≤ h.avg_energy)).drop 3 := by
    have hsplit : r ∈ ((hourlyEnergySorted logs).filter
        (fun h => 4 ≤ h.avg_energy)).take 3 ++
          ((hourlyEnergySorted logs).filter (fun h => 4 ≤ h.avg_energy)).drop 3 := by
      rw [List.take_append_drop]
      exact hrF
    rcases List.mem_append.mp hsplit with hmem | hmem
    · exact absurd hmem hrtake
    · exact hmem
  rw [peakHoursSel, ← List.map_take] at hh'
  obtain ⟨x, hx, rfl⟩ := List.mem_map.mp hh'
  have hP : ((hourlyEnergySorted logs).filter
      (fun h => 4 ≤ h.avg_energy)).Pairwise hourlyOrder :=
    (hourlyEnergySorted_pairwise logs).filter _
  rw [← List.take_append_drop 3 ((hourlyEnergySorted logs).filter
      (fun h => 4 ≤ h.avg_energy))] at hP
  have hcross : hourlyOrder x r := (List.pairwise_append.mp hP).2.2 x hx r hrdrop
  have hx' := avg_eq_hourMean_of_mem (mem_hourlyEnergySorted.mp
    (List.mem_filter.mp ((List.take_sublist _ _).subset hx)).1)
  rw [← hx']
  exact hcross

/-- Every selected low hour has mean at most 2. -/
theorem lowHoursSel_mem {logs : List EnergyLog} {h : Int}
    (hh : h ∈ lowHoursSel logs) : hourMean logs h ≤ 2 := by
  simp only [lowHoursSel] at hh
  rw [← List.map_drop] at hh
  obtain ⟨x, hx, rfl⟩ := List.mem_map.mp hh
  have hxF := (List.drop_sublist _ _).subset hx
  have hxS := List.mem_filter.mp hxF
  have h2 : x.avg_energy ≤ 2 := by simpa using hxS.2
  rw [← avg_eq_hourMean_of_mem (mem_hourlyEnergySorted.mp hxS.1)]
  exact h2

/-- The low selection keeps `min 3 (number of qualifying hours)` entries. -/
theorem lowHoursSel_length (logs : List EnergyLog) :
    (lowHoursSel logs).length =
      min 3 (((hourlyRows logs).filter (fun r => r.avg_energy ≤ 2)).length) := by
  simp only [lowHoursSel, List.length_drop, List.length_map,
    length_filter_hourlyEnergySorted]
  omega

/-- The low selection keeps the mean-descending order of the ranking. -/
theorem lowHoursSel_sorted (logs : List EnergyLog) :
    (lowHoursSel logs).Pairwise
      (fun h h' => hourMean logs h' ≤ hourMean logs h) := by
  simp only [lowHoursSel]
  rw [← List.map_drop, List.pairwise_map]
  have hF : ((hourlyEnergySorted logs).filter
      (fun h => h.avg_energy ≤ 2)).Pairwise hourlyOrder :=
    (hourlyEnergySorted_pairwise logs).filter _
  have hT : (((hourlyEnergySorted logs).filter (fun h => h.avg_energy ≤ 2)).drop
      ((((hourlyEnergySorted logs).filter (fun h => h.avg_energy ≤ 2)).map
        (fun h => h.hour)).length - 3)).Pairwise hourlyOrder :=
    hF.sublist (List.drop_sublist _ _)
  refine hT.imp_of_mem ?_
  intro a b ha hb hab
  have ha' := avg_eq_hourMean_of_mem (mem_hourlyEnergySorted.mp
    (List.mem_filter.mp ((List.drop_sublist _ _).subset ha)).1)
  have hb' := avg_eq_hourMean_of_mem (mem_hourlyEnergySorted.mp
    (List.mem_filter.mp ((List.drop_sublist _ _).subset hb)).1)
  rw [← ha', ← hb']
  exact hab

/-- `slice(-3)` keeps the tail of the ranking: every qualifying hour that is
left out has a mean at least that of every selected low hour. -/
theorem lowHoursSel_dominated {logs : List EnergyLog} {r : HourlyEnergy}
    (hr : r ∈ hourlyRows logs) (hq : r.avg_energy ≤ 2)
    (hn : r.hour ∉ lowHoursSel logs) :
    ∀ h' ∈ lowHoursSel logs, hourMean logs h' ≤ r.avg_energy := by
  intro h' hh'
  have hrF : r ∈ (hourlyEnergySorted logs).filter (fun h => h.avg_energy ≤ 2) :=
    List.mem_filter.mpr ⟨mem_hourlyEnergySorted.mpr hr, by simpa using hq⟩
  have hrdrop : r ∉ ((hourlyEnergySorted logs).filter
      (fun h => h.avg_energy ≤ 2)).drop
        ((((hourlyEnergySorted logs).filter (fun h => h.avg_energy ≤ 2)).map
          (fun h => h.hour)).length - 3) := by
    intro hc
    refine hn ?_
    simp only [lowHoursSel]
    rw [← List.map_drop]
    exact List.mem_map_of_mem _ hc
  have hrtake : r ∈ ((hourlyEnergySorted logs).filter
      (fun h => h.avg_energy ≤ 2)).take
        ((((hourlyEnergySorted logs).filter (fun h => h.avg_energy ≤ 2)).map
          (fun h => h.hour)).length - 3) := by
    have hsplit : r ∈ ((hourlyEnergySorted logs).filter
        (fun h => h.avg_energy ≤ 2)).take
          ((((hourlyEnergySorted logs).filter (fun h => h.avg_energy ≤ 2)).map
            (fun h => h.hour)).length - 3) ++
        ((hourlyEnergySorted logs).filter (fun h => h.avg_energy ≤ 2)).drop
          ((((hourlyEnergySorted logs).filter (fun h => h.avg_energy ≤ 2)).map
            (fun h => h.hour)).length - 3) := by
      rw [List.take_append_drop]
      exact hrF
    rcases List.mem_append.mp hsplit with hmem | hmem
    · exact hmem
    · exact absurd hmem hrdrop
  simp only [lowHoursSel] at hh'
  rw [← List.map_drop] at hh'
  obtain ⟨x, hx, rfl⟩ := List.mem_map.mp hh'
  have hP : ((hourlyEnergySorted logs).filter
      (fun h => h.avg_energy ≤ 2)).Pairwise hourlyOrder :=
    (hourlyEnergySorted_pairwise logs).filter _
  rw [← List.take_append_drop
    ((((hourlyEnergySorted logs).filter (fun h => h.avg_energy ≤ 2)).map
      (fun h => h.hour)).length - 3)
    ((hourlyEnergySorted logs).filter (fun h => h.avg_energy ≤ 2))] at hP
  have hcross : hourlyOrder r x := (List.pairwise_append.mp hP).2.2 r hrtake x hx
  have hx' := avg_eq_hourMean_of_mem (mem_hourlyEnergySorted.mp
    (List.mem_filter.mp ((List.drop_sublist _ _).subset hx)).1)
  rw [← hx']
  exact hcross

/-- With no logs at all there are no hourly rows. -/
theorem hourlyRows_nil : hourlyRows [] = [] := rfl

/-- Energy-pattern fixture: a peak log at hour 9 (level 5) and a low log at
hour 2 (level 1), both of user u7. -/
def c7Logs : List EnergyLog :=
  [{ id := "l1", user_id := "u7", energy_level := 5, mood_tags := none,
     notes := none, logged_at := 9 * 3600 },
   { id := "l2", user_id := "u7", energy_level := 1, mood_tags := none,
     notes := none, logged_at := 2 * 3600 }]

/-- C7: the pattern is the default exactly on an empty 30-day window;
otherwise `average_energy` is the plain mean over the window's logs (not
hour-weighted); `peak_hours` holds only hours of per-hour mean ≥ 4, ranked
mean-descending, capped at the first 3, every excluded qualifying hour
having a mean at most that of each kept one; `low_hours` holds only hours
of per-hour mean ≤ 2, keeps the descending order, has length
`min 3 (number of qualifying hours)` and is the tail of the ranking: every
excluded qualifying hour has a mean at least that of each kept one. -/
theorem calculateEnergyPattern_spec :
    ∀ (db : List EnergyLog) (userId : String) (now : Int),
      (windowLogs db userId now = [] →
        EnergyModel.calculateEnergyPattern db userId now =
          { user_id := userId, average_energy := 3, peak_hours := [],
            low_hours := [], total_logs := 0, hourly_data := [] }) ∧
      (windowLogs db userId now ≠ [] →
        (EnergyModel.calculateEnergyPattern db userId now).average_energy =
          sumLevels (windowLogs db userId now) / (windowLogs db userId now).length) ∧
      (∀ h ∈ (EnergyModel.calculateEnergyPattern db userId now).peak_hours,
        4 ≤ hourMean (windowLogs db userId now) h) ∧
      ((EnergyModel.calculateEnergyPattern db userId now).peak_hours.length =
        min 3 (((hourlyRows (windowLogs db userId now)).filter
          (fun r => 4 ≤ r.avg_energy)).length)) ∧
      ((EnergyModel.calculateEnergyPattern db userId now).peak_hours.Pairwise
        (fun h h' => hourMean (windowLogs db userId now) h' ≤
          hourMean (windowLogs db userId now) h)) ∧
      (∀ r ∈ hourlyRows (windowLogs db userId now), 4 ≤ r.avg_energy →
        r.hour ∉ (EnergyModel.calculateEnergyPattern db userId now).peak_hours →
        ∀ h' ∈ (EnergyModel.calculateEnergyPattern db userId now).peak_hours,
          r.avg_energy ≤ hourMean (windowLogs db userId now) h') ∧
      (∀ h ∈ (EnergyModel.calculateEnergyPattern db userId now).low_hours,
        hourMean (windowLogs db userId now) h ≤ 2) ∧
      ((EnergyModel.calculateEnergyPattern db userId now).low_hours.length =
        min 3 (((hourlyRows (windowLogs db userId now)).filter
          (fun r => r.avg_energy ≤ 2)).length)) ∧
      ((EnergyModel.calculateEnergyPattern db userId now).low_hours.Pairwise
        (fun h h' => hourMean (windowLogs db userId now) h' ≤
          hourMean (windowLogs db userId now) h)) ∧
      (∀ r ∈ hourlyRows (windowLogs db userId now), r.avg_energy ≤ 2 →
        r.hour ∉ (EnergyModel.calculateEnergyPattern db userId now).low_hours →
        ∀ h' ∈ (EnergyModel.calculateEnergyPattern db userId now).low_hours,
          hourMean (windowLogs db userId now) h' ≤ r.avg_energy) := by
  intro db userId now
  have hpeak : (EnergyModel.calculateEnergyPattern db userId now).peak_hours =
      peakHoursSel (windowLogs db userId now) := by
    cases hemp : (windowLogs db userId now).isEmpty with
    | true =>
        have hnil : windowLogs db userId now = [] := by simpa using hemp
        simp [EnergyModel.calculateEnergyPattern, peakHoursSel,
          hourlyEnergySorted, hourlyRows_nil, hnil]
    | false => simp [EnergyModel.calculateEnergyPattern, hemp]
  have hlow : (EnergyModel.calculateEnergyPattern db userId now).low_hours =
      lowHoursSel (windowLogs db userId now) := by
    cases hemp : (windowLogs db userId now).isEmpty with
    | true =>
        have hnil : windowLogs db userId now = [] := by simpa using hemp
        simp [EnergyModel.calculateEnergyPattern, lowHoursSel,
          hourlyEnergySorted, hourlyRows_nil, hnil]
    | false => simp [EnergyModel.calculateEnergyPattern, hemp]
  refine ⟨?_, ?_, ?_, ?_, ?_, ?_, ?_, ?_, ?_, ?_⟩
  · intro hnil
    have hemp : (windowLogs db userId now).isEmpty = true := by simp [hnil]
    simp [EnergyModel.calculateEnergyPattern, hemp]
  · intro hne
    have hemp : (windowLogs db userId now).isEmpty = false := by
      cases hw : windowLogs db userId now with
      | nil => exact absurd hw hne
      | cons a l => rfl
    simp [EnergyModel.calculateEnergyPattern, hemp]
  · rw [hpeak]
    exact fun h hh => peakHoursSel_mem hh
  · rw [hpeak]
    exact peakHoursSel_length _
  · rw [hpeak]
    exact peakHoursSel_sorted _
  · rw [hpeak]
    exact fun r hr hq hn => peakHoursSel_dominates hr hq hn
  · rw [hlow]
    exact fun h hh => lowHoursSel_mem hh
  · rw [hlow]
    exact lowHoursSel_length _
  · rw [hlow]
    exact lowHoursSel_sorted _
  · rw [hlow]
    exact fun r hr hq hn => lowHoursSel_dominated hr hq hn

/-- Witness for C7 on the two-log fixture: the average over the window, a
peak property at hour 9 and a low property at hour 2, all discharged
concretely. -/
theorem calculateEnergyPattern_spec_witness :
    ((EnergyModel.calculateEnergyPattern c7Logs "u7" 86400).average_energy =
      sumLevels (windowLogs c7Logs "u7" 86400) / (windowLogs c7Logs "u7" 86400).length) ∧
    (4 ≤ hourMean (windowLogs c7Logs "u7" 86400) 9) ∧
    (hourMean (windowLogs c7Logs "u7" 86400) 2 ≤ 2) :=
  ⟨(calculateEnergyPattern_spec c7Logs "u7" 86400).2.1 (by decide),
   (calculateEnergyPattern_spec c7Logs "u7" 86400).2.2.1 9 (by decide),
   (calculateEnergyPattern_spec c7Logs "u7" 86400).2.2.2.2.2.2.1 2 (by decide)⟩

end SyncScript
